import Mathlib

/-!
# Verification of the flux-replicate-mcp generation pipeline

A shallow embedding of `src/index.ts` of the flux-replicate-mcp server:
the `generate_image` orchestration pipeline (validation, output-path
resolution, remote submission, download, image processing, cleanup on
failure) and the surrounding tool-call handler.

Conventions of the embedding:
* JavaScript strings are modelled as Lean `String` over Unicode scalar
  values; `String.prototype.toLowerCase` is modelled as ASCII
  lower-casing (`Char.toLower`), which agrees with JS on all characters
  the filename cleaner can keep.
* Effects (remote calls, filesystem operations, cleanup) are recorded in
  an explicit event trace; the collaborators the orchestrator awaits
  (`ReplicateClient.generateImage` / `downloadImage`, `fs.mkdir`,
  `ImageProcessor.processImage`) are stub functions supplied as
  parameters, each returning `Except` like the `async` originals.
* Thrown JS exceptions are `Thrown`: either a typed `McpError`
  (validation / processing kind, as in `errors.js`) or any other value
  (`Thrown.other`), mirroring the `err instanceof McpError` test.
-/

/-- The character class JS `\s` matches (ASCII whitespace, NBSP, BOM and
the Unicode space separators), used by `/[^a-z0-9\s]/g` and `/\s+/g` in
`generateFilename` and by `String.prototype.trim`. -/
def jsIsWhitespace (c : Char) : Bool :=
  c = ' ' || c = '\t' || c = '\n' || c = '\r' ||
  c = Char.ofNat 0x0b || c = Char.ofNat 0x0c || c = Char.ofNat 0xa0 ||
  c = Char.ofNat 0x1680 || (0x2000 ≤ c.toNat && c.toNat ≤ 0x200a) ||
  c = Char.ofNat 0x2028 || c = Char.ofNat 0x2029 || c = Char.ofNat 0x202f ||
  c = Char.ofNat 0x205f || c = Char.ofNat 0x3000 || c = Char.ofNat 0xfeff

/-- `String.prototype.trim`: strip leading and trailing JS whitespace. -/
def jsTrim (s : String) : String :=
  String.mk (((s.data.dropWhile jsIsWhitespace).reverse.dropWhile jsIsWhitespace).reverse)

/-- `String.prototype.toLowerCase`, modelled as per-character ASCII
lower-casing. -/
def jsToLower (s : String) : String :=
  String.mk (s.data.map Char.toLower)

/-- `.replace(/[^a-z0-9\s]/g, '')`: keep only lowercase ASCII letters,
digits and JS whitespace. -/
def jsStripSpecial (l : List Char) : List Char :=
  l.filter fun c => ('a' ≤ c && c ≤ 'z') || ('0' ≤ c && c ≤ '9') || jsIsWhitespace c

/-- `.replace(/\s+/g, '_')`: each maximal run of JS whitespace becomes a
single underscore.  The flag records whether the previous character was
whitespace (i.e. whether we are inside a run already replaced). -/
def collapseWsAux : Bool → List Char → List Char
  | _, [] => []
  | prevWs, c :: rest =>
    if jsIsWhitespace c then
      (if prevWs then [] else ['_']) ++ collapseWsAux true rest
    else c :: collapseWsAux false rest

/-- `new Date().toISOString().replace(/[:.]/g, '-').substring(0, 19)`,
with the wall-clock ISO string passed in explicitly. -/
def jsTimestamp (isoNow : String) : String :=
  String.mk ((isoNow.data.map fun c => if c = ':' || c = '.' then '-' else c).take 19)

/-- `generateFilename` of `src/index.ts` (lines 129-139): lower-case the
prompt, strip characters outside `[a-z0-9\s]`, collapse whitespace runs
to `_`, truncate to 50 characters, then append `_`, the transformed
timestamp, `.` and the format. -/
def generateFilename (prompt format isoNow : String) : String :=
  let cleanPrompt := String.mk ((collapseWsAux false (jsStripSpecial (jsToLower prompt).data)).take 50)
  cleanPrompt ++ "_" ++ jsTimestamp isoNow ++ "." ++ format

/-- Node `path.isAbsolute` (posix): the path begins with `/`. -/
def isAbsolute (p : String) : Bool :=
  match p.data with
  | '/' :: _ => true
  | _ => false

/-- Node `path.join` (posix) for the shapes the server uses (a directory
joined with a fresh filename); dot-segment normalisation is irrelevant
here and elided. -/
def pathJoin (dir file : String) : String :=
  if dir = "" then file
  else if dir.data.getLast? = some '/' then dir ++ file
  else dir ++ "/" ++ file

/-- Node `path.dirname` (posix). -/
def dirname (p : String) : String :=
  let rev := p.data.reverse
  let rev1 := rev.dropWhile (· = '/')
  let rev2 := (rev1.dropWhile (· ≠ '/')).dropWhile (· = '/')
  if rev2.isEmpty then (if isAbsolute p then "/" else ".")
  else String.mk rev2.reverse

/-- Modelled from the spec: the error taxonomy of `errors.js` (not under
`src/`) — "Validation error ... Processing error", the two kinds
`validationError` and `processingError` construct in `index.ts`. -/
inductive ErrKind
  | validation
  | processing
deriving DecidableEq, Repr

/-- Modelled from the spec: an `McpError` of `errors.js` (not under
`src/`) — a kind from the taxonomy plus a descriptive message. -/
structure McpErr where
  kind : ErrKind
  message : String
deriving DecidableEq, Repr

/-- `validationError(msg)` of `errors.js`. -/
def validationError (msg : String) : McpErr := ⟨ErrKind.validation, msg⟩

/-- `processingError(msg)` of `errors.js`. -/
def processingError (msg : String) : McpErr := ⟨ErrKind.processing, msg⟩

/-- A thrown JS exception: either a typed `McpError` or anything else
(a system error from `fs`, a network error, ...), mirroring the
`err instanceof McpError` test in the tool-call handler. -/
inductive Thrown
  | mcp (e : McpErr)
  | other (msg : String)
deriving DecidableEq, Repr

/-- The configuration record `getConfig()` returns, as `index.ts` reads
it (fields `outputFormat`, `defaultModel`, `outputQuality`). -/
structure Config where
  outputFormat : String
  defaultModel : String
  outputQuality : Int
deriving DecidableEq, Repr

/-- The result of `ReplicateClient.generateImage`: asset URLs plus the
processing-time measurement. -/
structure GenerationResult where
  imageUrls : List String
  processingTime : Int
deriving DecidableEq, Repr

/-- The result of `ImageProcessor.processImage`: final path, byte size
and actual pixel dimensions. -/
structure ProcessResult where
  outputPath : String
  fileSize : Nat
  width : Int
  height : Int
deriving DecidableEq, Repr

/-- The awaited collaborators of the orchestrator, supplied as stub
functions (their implementations live in `replicate.js`, `image.js` and
Node's `fs`, outside `src/`); each may throw, hence `Except Thrown`.
`calculateCost` is modelled from the spec: `config.js` is not under
`src/`, the spec fixes only "a monetary figure derived purely from the
model identifier (a static lookup)", so the lookup table is abstract, in
thousandths of a currency unit. -/
structure Stubs where
  generateImage : String → String → Int → Int → Except Thrown GenerationResult
  downloadImage : String → Except Thrown Nat
  mkdir : String → Except Thrown Unit
  processImage : Nat → String → Int → Int → Int → Except Thrown ProcessResult
  calculateCost : String → Nat

/-- Observable effects of one request, in order of occurrence: each
remote or filesystem invocation, the write of the final file performed
inside a successful `processImage`, and each `tempManager.cleanupAll()`
call. -/
inductive Event
  | remoteGenerate (prompt model : String) (width height : Int)
  | remoteDownload (url : String)
  | fsMkdir (dir : String)
  | processCall (outputPath : String) (quality width height : Int)
  | fsWrite (path : String)
  | cleanupAll
deriving DecidableEq, Repr

/-- One content block of an MCP tool response. -/
structure TextContent where
  text : String
deriving DecidableEq, Repr

/-- An MCP tool response as `index.ts` builds it: a content list and the
`isError` flag (absent on success, modelled as `false`). -/
structure McpResponse where
  content : List TextContent
  isError : Bool
deriving DecidableEq, Repr

/-- A JS value supplied for `args.prompt`: the handler distinguishes
strings from everything else via `typeof`. -/
inductive JsVal
  | str (s : String)
  | num (n : Int)
  | other
deriving DecidableEq, Repr

/-- JS truthiness of `args.prompt` (`!args.prompt`): absent, `""` and
`0` are falsy; objects are truthy. -/
def optTruthy : Option JsVal → Bool
  | none => false
  | some (JsVal.str s) => s ≠ ""
  | some (JsVal.num n) => n ≠ 0
  | some JsVal.other => true

/-- `typeof v === 'string'`. -/
def isStrVal : Option JsVal → Bool
  | some (JsVal.str _) => true
  | _ => false

/-- The text of a string-valued prompt (only read after validation). -/
def promptText : Option JsVal → String
  | some (JsVal.str s) => s
  | _ => ""

/-- The prompt check of `handleGenerateImage` (line 163):
`!args.prompt || typeof args.prompt !== 'string' || args.prompt.trim().length === 0`. -/
def promptInvalid (p : Option JsVal) : Bool :=
  !(optTruthy p) || !(isStrVal p) ||
  (match p with
   | some (JsVal.str s) => jsTrim s = ""
   | _ => false)

/-- JS `x || d` for an optional string argument: a missing or empty
(falsy) value yields the default. -/
def jsOrStr : Option String → String → String
  | some s, d => if s ≠ "" then s else d
  | none, d => d

/-- JS `x || d` for an optional numeric argument: a missing or zero
(falsy) value yields the default. -/
def jsOrInt : Option Int → Int → Int
  | some n, d => if n ≠ 0 then n else d
  | none, d => d

/-- JS truthiness of `outputPath : string | undefined` (`if (outputPath)`). -/
def strTruthy : Option String → Bool
  | some s => s ≠ ""
  | none => false

/-- The argument bag of a `generate_image` call, as the handler reads
it. `prompt` keeps its JS value (the code type-checks it); the remaining
fields are only tested for truthiness, so they carry their expected
types directly. -/
structure Args where
  prompt : Option JsVal
  model : Option String
  output_path : Option String
  width : Option Int
  height : Option Int
  quality : Option Int
deriving Repr

/-- Modelled from the spec: `ReplicateClient.getAvailableModels` lives
in `replicate.js`, not under `src/`; the spec fixes "a fixed enumerated
set" of "4 literals", matching the tool schema enum in `index.ts`
(lines 68-72). -/
def availableModels : List String :=
  ["flux-1.1-pro", "flux-pro", "flux-schnell", "flux-ultra"]

/-- Modelled from the spec: `ReplicateClient.isModelSupported` —
membership in the fixed supported set, "static, no I/O". -/
def isModelSupported (m : String) : Bool :=
  availableModels.contains m

/-- `resolveOutputPath` of `src/index.ts` (lines 144-156): a truthy
`outputPath` must be absolute and is returned unchanged; otherwise an
auto-generated filename inside the working directory. -/
def resolveOutputPath (outputPath : Option String) (prompt defaultFormat workingDirectory isoNow : String) :
    Except Thrown String :=
  if strTruthy outputPath then
    let s := outputPath.getD ""
    if !(isAbsolute s) then
      Except.error (Thrown.mcp (validationError "output_path must be an absolute path. Relative paths are not supported because the client and server may run in different environments."))
    else
      Except.ok s
  else
    Except.ok (pathJoin workingDirectory (generateFilename prompt defaultFormat isoNow))

/-- `Math.round(fileSize / 1024)` for a nonnegative byte count: round to
the nearest integer, halves up. -/
def jsRoundKB (fileSize : Nat) : Nat :=
  (fileSize + 512) / 1024

/-- Left-pad a value below 1000 to three digits (the fractional part of
`toFixed(3)`). -/
def pad3 (n : Nat) : String :=
  if n < 10 then "00" ++ toString n
  else if n < 100 then "0" ++ toString n
  else toString n

/-- `cost.toFixed(3)` with the cost carried in thousandths of a
currency unit: always exactly three digits after the decimal point. -/
def formatMilli3 (m : Nat) : String :=
  toString (m / 1000) ++ "." ++ pad3 (m % 1000)

/-- The success summary text of `handleGenerateImage` (line 250),
character for character. -/
def successText (outputPath model : String) (width height : Int) (fileSize : Nat)
    (processingTime : Int) (costMilli : Nat) (workingDirectory : String) : String :=
  "Image generated successfully!\n\nOutput: " ++ outputPath ++
  "\nModel: " ++ model ++
  "\nDimensions: " ++ toString width ++ "x" ++ toString height ++
  "\nFile size: " ++ toString (jsRoundKB fileSize) ++ "KB" ++
  "\nProcessing time: " ++ toString processingTime ++ "ms" ++
  "\nCost: $" ++ formatMilli3 costMilli ++
  "\nWorking Directory: " ++ workingDirectory

/-- The body of the `try` block of `handleGenerateImage` (lines
201-254): submit, check the asset list, download the first asset
(`imageUrls[0]`, with JS falsiness re-checked), create the output
directory, process the image, compute the cost and build the success
response.  Returns the outcome and the event trace of the stages that
ran. -/
def runGeneration (st : Stubs) (workingDirectory resolvedOutputPath prompt model : String)
    (width height quality : Int) : Except Thrown McpResponse × List Event :=
  match st.generateImage prompt model width height with
  | Except.error e =>
    (Except.error e, [Event.remoteGenerate prompt model width height])
  | Except.ok result =>
    if result.imageUrls.length = 0 then
      (Except.error (Thrown.mcp (processingError "No images were generated")),
       [Event.remoteGenerate prompt model width height])
    else if result.imageUrls.headD "" = "" then
      (Except.error (Thrown.mcp (processingError "No valid image URL returned")),
       [Event.remoteGenerate prompt model width height])
    else
      match st.downloadImage (result.imageUrls.headD "") with
      | Except.error e =>
        (Except.error e,
         [Event.remoteGenerate prompt model width height,
          Event.remoteDownload (result.imageUrls.headD "")])
      | Except.ok imageBuffer =>
        match st.mkdir (dirname resolvedOutputPath) with
        | Except.error e =>
          (Except.error e,
           [Event.remoteGenerate prompt model width height,
            Event.remoteDownload (result.imageUrls.headD ""),
            Event.fsMkdir (dirname resolvedOutputPath)])
        | Except.ok _ =>
          match st.processImage imageBuffer resolvedOutputPath quality width height with
          | Except.error e =>
            (Except.error e,
             [Event.remoteGenerate prompt model width height,
              Event.remoteDownload (result.imageUrls.headD ""),
              Event.fsMkdir (dirname resolvedOutputPath),
              Event.processCall resolvedOutputPath quality width height])
          | Except.ok processResult =>
            (Except.ok
              { content := [⟨successText processResult.outputPath model processResult.width
                  processResult.height processResult.fileSize result.processingTime
                  (st.calculateCost model) workingDirectory⟩],
                isError := false },
             [Event.remoteGenerate prompt model width height,
              Event.remoteDownload (result.imageUrls.headD ""),
              Event.fsMkdir (dirname resolvedOutputPath),
              Event.processCall resolvedOutputPath quality width height,
              Event.fsWrite processResult.outputPath])

/-- `handleGenerateImage` of `src/index.ts` (lines 161-260): validate
the prompt, resolve the output path, apply the `||` defaults, validate
the model, then run the generation pipeline; any error thrown inside
the `try` block triggers `tempManager.cleanupAll()` and is rethrown
unchanged. -/
def handleGenerateImage (st : Stubs) (cfg : Config) (workingDirectory isoNow : String)
    (args : Args) : Except Thrown McpResponse × List Event :=
  if promptInvalid args.prompt then
    (Except.error (Thrown.mcp (validationError "Prompt is required and must be a non-empty string")), [])
  else
    let prompt := jsTrim (promptText args.prompt)
    match resolveOutputPath args.output_path prompt cfg.outputFormat workingDirectory isoNow with
    | Except.error e => (Except.error e, [])
    | Except.ok resolvedOutputPath =>
      let modelParam := jsOrStr args.model cfg.defaultModel
      let width := jsOrInt args.width 1024
      let height := jsOrInt args.height 768
      let quality := jsOrInt args.quality cfg.outputQuality
      if !(isModelSupported modelParam) then
        (Except.error (Thrown.mcp (validationError
          ("Unsupported model: " ++ modelParam ++ ". Supported models: " ++
           String.intercalate ", " availableModels))), [])
      else
        match runGeneration st workingDirectory resolvedOutputPath prompt modelParam
            width height quality with
        | (Except.error e, evs) => (Except.error e, evs ++ [Event.cleanupAll])
        | (Except.ok r, evs) => (Except.ok r, evs)

/-- The `CallToolRequestSchema` handler of `setupHandlers` (lines
100-123): a `generate_image` call is answered with the handler's
response, any thrown error being converted into the error envelope
(non-`McpError` values normalised to a generic processing error); any
other tool name throws a validation error out of the handler. -/
def callToolHandler (st : Stubs) (cfg : Config) (workingDirectory isoNow : String)
    (name : String) (args : Args) : Except Thrown McpResponse × List Event :=
  if name = "generate_image" then
    match handleGenerateImage st cfg workingDirectory isoNow args with
    | (Except.ok resp, evs) => (Except.ok resp, evs)
    | (Except.error err, evs) =>
      let mcpError := match err with
        | Thrown.mcp e => e
        | Thrown.other _ => processingError "Unknown error occurred"
      (Except.ok { content := [⟨"Error: " ++ mcpError.message⟩], isError := true }, evs)
  else
    (Except.error (Thrown.mcp (validationError ("Unknown tool: " ++ name))), [])

/-- Does the event mark the remote submission (entry into the `try`
block)? -/
def isGen : Event → Bool
  | Event.remoteGenerate _ _ _ _ => true
  | _ => false

/-- Is the event a `cleanupAll` invocation? -/
def isCleanup : Event → Bool
  | Event.cleanupAll => true
  | _ => false

/-- How many times `cleanupAll` ran in a trace. -/
def cleanupCount (evs : List Event) : Nat :=
  evs.countP isCleanup

/-- Dropping a prefix never lengthens a list. -/
theorem length_dropWhile_le (p : Char → Bool) (l : List Char) :
    (l.dropWhile p).length ≤ l.length := by
  induction l with
  | nil => simp [List.dropWhile]
  | cons a l ih =>
    rw [List.dropWhile_cons]
    split
    · exact Nat.le_succ_of_le ih
    · simp

/-- Replace each maximal run of whitespace by a single underscore, by
direct recursion on the runs (the natural reading of "collapsing each
run of whitespace to a single underscore"), with explicit fuel so the
recursion is structural. -/
def collapseRunsF : Nat → List Char → List Char
  | 0, _ => []
  | _ + 1, [] => []
  | n + 1, c :: cs =>
    if jsIsWhitespace c then '_' :: collapseRunsF n (cs.dropWhile jsIsWhitespace)
    else c :: collapseRunsF n cs

/-- Run-recursion collapse with just enough fuel. -/
def collapseRuns (l : List Char) : List Char :=
  collapseRunsF l.length l

/-- The fuel does not matter once it covers the list's length. -/
theorem collapseRunsF_irrel :
    ∀ n k (l : List Char), l.length ≤ n → l.length ≤ k →
      collapseRunsF n l = collapseRunsF k l := by
  intro n
  induction n with
  | zero =>
    intro k l hn _
    have : l = [] := List.eq_nil_of_length_eq_zero (Nat.le_zero.mp hn)
    subst this
    cases k <;> rfl
  | succ n ih =>
    intro k l hn hk
    match l with
    | [] => cases k <;> rfl
    | c :: cs =>
      match k with
      | 0 => exact absurd hk (by simp)
      | m + 1 =>
        have hcsn : cs.length ≤ n := Nat.le_of_succ_le_succ hn
        have hcsm : cs.length ≤ m := Nat.le_of_succ_le_succ hk
        have hdn : (cs.dropWhile jsIsWhitespace).length ≤ n :=
          le_trans (length_dropWhile_le _ _) hcsn
        have hdm : (cs.dropWhile jsIsWhitespace).length ≤ m :=
          le_trans (length_dropWhile_le _ _) hcsm
        by_cases hws : jsIsWhitespace c
        · simp only [collapseRunsF, if_pos hws]
          rw [ih m _ hdn hdm]
        · simp only [collapseRunsF, if_neg hws]
          rw [ih m _ hcsn hcsm]

/-- Any sufficient fuel computes `collapseRuns`. -/
theorem collapseRunsF_fuel (n : Nat) (l : List Char) (h : l.length ≤ n) :
    collapseRunsF n l = collapseRuns l :=
  collapseRunsF_irrel n l.length l h le_rfl

/-- The filename derivation exactly as the spec words it: lower-case,
keep only characters of `[a-z0-9 ]` (lowercase letters, digits and the
space character ONLY), collapse whitespace runs to `_`, truncate to 50
characters, then append `_`, the 19-character transformed timestamp,
`.` and the format.  Stated for comparison with `generateFilename`; the
two differ on prompts containing non-space whitespace. -/
def claimFilename (prompt format isoNow : String) : String :=
  let cleaned := (jsToLower prompt).data.filter fun c =>
    ('a' ≤ c && c ≤ 'z') || ('0' ≤ c && c ≤ '9') || c = ' '
  String.mk ((collapseRuns cleaned).take 50) ++ "_" ++ jsTimestamp isoNow ++ "." ++ format

/-- The filename derivation as the amended claim words it: as
`claimFilename`, except that the stripping step keeps ALL whitespace
(the JS class `\s`), not just the space character, so that tabs and
newlines also reach the collapsing step. -/
def amendedFilenameSpec (prompt format isoNow : String) : String :=
  let cleaned := (jsToLower prompt).data.filter fun c =>
    ('a' ≤ c && c ≤ 'z') || ('0' ≤ c && c ≤ '9') || jsIsWhitespace c
  String.mk ((collapseRuns cleaned).take 50) ++ "_" ++ jsTimestamp isoNow ++ "." ++ format

/-- The two formulations of whitespace-run collapsing agree: the
accumulator form used by the code model equals the run-recursion form
used by the spec model. -/
theorem collapseWsAux_eq_collapseRuns (l : List Char) :
    collapseWsAux false l = collapseRuns l := by
  suffices h : ∀ n (l : List Char), l.length ≤ n →
      collapseWsAux false l = collapseRuns l ∧
      collapseWsAux true l = collapseRuns (l.dropWhile jsIsWhitespace) by
    exact (h l.length l le_rfl).1
  intro n
  induction n with
  | zero =>
    intro l hl
    have : l = [] := List.eq_nil_of_length_eq_zero (Nat.le_zero.mp hl)
    subst this
    exact ⟨rfl, rfl⟩
  | succ n ih =>
    intro l hl
    match l with
    | [] => exact ⟨rfl, rfl⟩
    | c :: cs =>
      have hcs : cs.length ≤ n := Nat.le_of_succ_le_succ hl
      have hdrop : (cs.dropWhile jsIsWhitespace).length ≤ cs.length :=
        length_dropWhile_le _ _
      have hruns : collapseRuns (c :: cs)
          = (if jsIsWhitespace c then '_' :: collapseRuns (cs.dropWhile jsIsWhitespace)
             else c :: collapseRuns cs) := by
        show collapseRunsF (cs.length + 1) (c :: cs) = _
        by_cases hws : jsIsWhitespace c
        · simp only [collapseRunsF, if_pos hws]
          rw [collapseRunsF_fuel cs.length _ hdrop]
        · simp only [collapseRunsF, if_neg hws]
          rw [collapseRunsF_fuel cs.length cs le_rfl]
      by_cases hws : jsIsWhitespace c
      · constructor
        · show collapseWsAux false (c :: cs) = collapseRuns (c :: cs)
          rw [hruns, if_pos hws]
          simp only [collapseWsAux, hws, if_true, List.cons_append, List.nil_append]
          exact congrArg (fun t => '_' :: t) ((ih cs hcs).2)
        · show collapseWsAux true (c :: cs) = collapseRuns ((c :: cs).dropWhile jsIsWhitespace)
          rw [List.dropWhile_cons_of_pos hws]
          simp only [collapseWsAux, hws, if_true, List.nil_append]
          exact (ih cs hcs).2
      · constructor
        · show collapseWsAux false (c :: cs) = collapseRuns (c :: cs)
          rw [hruns, if_neg hws]
          simp only [collapseWsAux, hws, if_false]
          exact congrArg (fun t => c :: t) ((ih cs hcs).1)
        · show collapseWsAux true (c :: cs) = collapseRuns ((c :: cs).dropWhile jsIsWhitespace)
          rw [List.dropWhile_cons_of_neg hws, hruns, if_neg hws]
          simp only [collapseWsAux, hws, if_false]
          exact congrArg (fun t => c :: t) ((ih cs hcs).1)

/-- The trace of the `try`-block body: it always begins with the remote
submission, contains no cleanup event (cleanup happens only in the
`catch`), and every `processImage` invocation in it carries exactly the
resolved path and the defaulted quality/width/height. -/
theorem runGeneration_snd (st : Stubs) (wd rp p m : String) (w h q : Int)
    (r : Except Thrown McpResponse) (evs : List Event)
    (hrun : runGeneration st wd rp p m w h q = (r, evs)) :
    (∃ tail, evs = Event.remoteGenerate p m w h :: tail) ∧
    (∀ e ∈ evs, isCleanup e = false) ∧
    (∀ s q2 w2 h2, Event.processCall s q2 w2 h2 ∈ evs →
      s = rp ∧ q2 = q ∧ w2 = w ∧ h2 = h) := by
  unfold runGeneration at hrun
  repeat' split at hrun
  all_goals obtain ⟨rfl, rfl⟩ := Prod.mk.inj hrun.symm
  all_goals refine ⟨⟨_, rfl⟩, by simp [isCleanup], ?_⟩
  all_goals intro s q2 w2 h2 hm
  all_goals simp at hm
  all_goals exact ⟨hm.1, hm.2.1, hm.2.2.1, hm.2.2.2⟩

/-- Under a valid prompt, a resolvable output path and a supported
(defaulted) model, `handleGenerateImage` is exactly the `try`-block
pipeline wrapped by the cleanup-on-error `catch`. -/
theorem handleGenerateImage_eq_run (st : Stubs) (cfg : Config) (wd iso : String)
    (args : Args) (rp : String)
    (hp : promptInvalid args.prompt = false)
    (hpath : resolveOutputPath args.output_path (jsTrim (promptText args.prompt))
      cfg.outputFormat wd iso = Except.ok rp)
    (hmodel : isModelSupported (jsOrStr args.model cfg.defaultModel) = true) :
    handleGenerateImage st cfg wd iso args =
      (match runGeneration st wd rp (jsTrim (promptText args.prompt))
          (jsOrStr args.model cfg.defaultModel) (jsOrInt args.width 1024)
          (jsOrInt args.height 768) (jsOrInt args.quality cfg.outputQuality) with
       | (Except.error e, evs) => (Except.error e, evs ++ [Event.cleanupAll])
       | (Except.ok r, evs) => (Except.ok r, evs)) := by
  unfold handleGenerateImage
  simp only [hp, hpath, hmodel, Bool.false_eq_true, if_false, Bool.not_true]

/-- A concrete configuration for concrete runs. -/
def cfg0 : Config := ⟨"jpg", "flux-1.1-pro", 80⟩

/-- A fixed wall-clock ISO timestamp for concrete runs. -/
def iso0 : String := "2025-01-02T03:04:05.678Z"

/-- Stubs for which every stage succeeds; the processor writes a
200000-byte file at the requested path and dimensions. -/
def happyStubs : Stubs :=
  { generateImage := fun _ _ _ _ => Except.ok ⟨["http://img"], 1200⟩
    downloadImage := fun _ => Except.ok 7
    mkdir := fun _ => Except.ok ()
    processImage := fun _ path _ w h => Except.ok ⟨path, 200000, w, h⟩
    calculateCost := fun _ => 55 }

/-- Stubs whose remote client returns zero asset URLs. -/
def zeroStubs : Stubs :=
  { happyStubs with generateImage := fun _ _ _ _ => Except.ok ⟨[], 500⟩ }

/-- Stubs whose remote submission throws a typed processing error. -/
def failStubs : Stubs :=
  { happyStubs with
    generateImage := fun _ _ _ _ => Except.error (Thrown.mcp (processingError "boom")) }

/-- Stubs whose directory creation throws a non-`McpError` value (a
bare filesystem error). -/
def otherFailStubs : Stubs :=
  { happyStubs with mkdir := fun _ => Except.error (Thrown.other "EACCES") }

/-- A well-formed argument bag: valid prompt, supported model,
everything else absent. -/
def argsGood : Args := ⟨some (JsVal.str "hello"), some "flux-pro", none, none, none, none⟩

/-- An argument bag with no prompt at all. -/
def argsNoPrompt : Args := ⟨none, none, none, none, none, none⟩

/-- A well-formed argument bag carrying the out-of-range quality 150. -/
def argsQ150 : Args := ⟨some (JsVal.str "hello"), some "flux-pro", none, none, none, some 150⟩

/-- C10: an `output_path` supplied as the empty string is falsy in JS,
so `resolveOutputPath` treats it as absent: no validation error, the
auto-generated filename inside the working directory is returned. -/
theorem c10_empty_output_path_treated_as_absent (prompt fmt wd iso : String) :
    resolveOutputPath (some "") prompt fmt wd iso
      = Except.ok (pathJoin wd (generateFilename prompt fmt iso)) := by
  unfold resolveOutputPath
  simp [strTruthy]

/-- C6: a prompt that is absent, not a string, empty, or whitespace-only
makes `handleGenerateImage` fail with the prompt validation error while
the event trace stays empty (no remote call, no filesystem I/O). -/
theorem c6_bad_prompt_validation_error (st : Stubs) (cfg : Config) (wd iso : String)
    (args : Args)
    (h : match args.prompt with
         | some (JsVal.str s) => jsTrim s = ""
         | _ => True) :
    handleGenerateImage st cfg wd iso args
      = (Except.error (Thrown.mcp (validationError "Prompt is required and must be a non-empty string")), []) := by
  have hpi : promptInvalid args.prompt = true := by
    match hpr : args.prompt with
    | none => rfl
    | some (JsVal.str s) =>
      rw [hpr] at h
      simp [promptInvalid, h]
    | some (JsVal.num n) => simp [promptInvalid, isStrVal]
    | some JsVal.other => simp [promptInvalid, isStrVal]
  unfold handleGenerateImage
  rw [hpi]
  rfl

/-- C6 witness: the concrete call with no prompt at all. -/
theorem c6_bad_prompt_validation_error_witness :
    handleGenerateImage happyStubs cfg0 "/wd" iso0 argsNoPrompt
      = (Except.error (Thrown.mcp (validationError "Prompt is required and must be a non-empty string")), []) :=
  c6_bad_prompt_validation_error happyStubs cfg0 "/wd" iso0 argsNoPrompt trivial

/-- C7: a supplied non-empty, non-absolute `output_path` always yields
a validation error with an empty event trace (no filesystem or remote
I/O); a supplied absolute path is returned by the resolver unchanged. -/
theorem c7_output_path_validation (st : Stubs) (cfg : Config) (wd iso : String)
    (args : Args) (s : String) :
    (args.output_path = some s → s ≠ "" → isAbsolute s = false →
      ∃ m, handleGenerateImage st cfg wd iso args
        = (Except.error (Thrown.mcp ⟨ErrKind.validation, m⟩), [])) ∧
    (∀ prompt fmt, isAbsolute s = true →
      resolveOutputPath (some s) prompt fmt wd iso = Except.ok s) := by
  constructor
  · intro hop hne habs
    by_cases hpi : promptInvalid args.prompt = true
    · refine ⟨"Prompt is required and must be a non-empty string", ?_⟩
      unfold handleGenerateImage
      rw [hpi]
      rfl
    · have hpi' : promptInvalid args.prompt = false := by simpa using hpi
      refine ⟨"output_path must be an absolute path. Relative paths are not supported because the client and server may run in different environments.", ?_⟩
      have hres : resolveOutputPath args.output_path (jsTrim (promptText args.prompt))
          cfg.outputFormat wd iso
          = Except.error (Thrown.mcp (validationError "output_path must be an absolute path. Relative paths are not supported because the client and server may run in different environments.")) := by
        unfold resolveOutputPath
        rw [hop]
        simp [strTruthy, hne, habs]
      unfold handleGenerateImage
      simp only [hpi', Bool.false_eq_true, if_false, hres]
      rfl
  · intro prompt fmt habs
    have hne : s ≠ "" := by
      intro he
      rw [he] at habs
      simp [isAbsolute] at habs
    unfold resolveOutputPath
    simp [strTruthy, hne, habs]

/-- C7 witness: the relative path `out/img.png` is rejected with an
empty trace, and the absolute path `/abs/img.png` is returned as is. -/
theorem c7_output_path_validation_witness :
    (⟨some (JsVal.str "hello"), none, some "out/img.png", none, none, none⟩ : Args).output_path
        = some "out/img.png" ∧
    (∃ m, handleGenerateImage happyStubs cfg0 "/wd" iso0
        ⟨some (JsVal.str "hello"), none, some "out/img.png", none, none, none⟩
      = (Except.error (Thrown.mcp ⟨ErrKind.validation, m⟩), [])) ∧
    resolveOutputPath (some "/abs/img.png") "hello" "jpg" "/wd" iso0 = Except.ok "/abs/img.png" := by
  refine ⟨rfl, ?_, ?_⟩
  · exact (c7_output_path_validation happyStubs cfg0 "/wd" iso0
      ⟨some (JsVal.str "hello"), none, some "out/img.png", none, none, none⟩ "out/img.png").1
      rfl (by decide) rfl
  · exact (c7_output_path_validation happyStubs cfg0 "/wd" iso0
      ⟨some (JsVal.str "hello"), none, some "out/img.png", none, none, none⟩ "/abs/img.png").2
      "hello" "jpg" rfl

/-- C2 counterexample: on the prompt `"a\tb"` (a tab between two
letters) the code keeps the tab through the stripping step (JS `\s`
includes tabs) and then collapses it to an underscore, yielding
`a_b_...`, while the claim's rule — strip every character outside
`[a-z0-9 ]`, the space character only — deletes the tab, yielding
`ab_...`. -/
theorem c2_filename_counterexample :
    generateFilename "a\tb" "png" iso0 = "a_b_2025-01-02T03-04-05.png" ∧
    claimFilename "a\tb" "png" iso0 = "ab_2025-01-02T03-04-05.png" ∧
    generateFilename "a\tb" "png" iso0 ≠ claimFilename "a\tb" "png" iso0 := by
  exact ⟨rfl, rfl, by decide⟩

/-- C2 amended: the filename derivation is exactly the claim's pipeline
with the stripping step keeping all JS whitespace (not only spaces):
lower-case, keep `[a-z0-9]` and whitespace, collapse whitespace runs to
single underscores, truncate to 50 characters, append `_`, the
19-character hyphenated timestamp, `.` and the format. -/
theorem c2_filename_amended (prompt format isoNow : String) :
    generateFilename prompt format isoNow = amendedFilenameSpec prompt format isoNow := by
  unfold generateFilename amendedFilenameSpec jsStripSpecial
  rw [collapseWsAux_eq_collapseRuns]

/-- A successful pipeline outcome is always the single-text-block
success response with the error flag unset. -/
theorem runGeneration_ok_shape (st : Stubs) (wd rp p m : String) (w h q : Int)
    (r : McpResponse) (evs : List Event)
    (hrun : runGeneration st wd rp p m w h q = (Except.ok r, evs)) :
    ∃ t, r = ⟨[⟨t⟩], false⟩ := by
  unfold runGeneration at hrun
  repeat' split at hrun
  all_goals simp only [Prod.mk.injEq] at hrun
  all_goals first
    | exact ⟨_, (Except.ok.inj hrun.1).symm⟩
    | exact absurd hrun.1 (by simp)

/-- A successful `handleGenerateImage` outcome is always the
single-text-block success response with the error flag unset. -/
theorem handleGenerateImage_ok_shape (st : Stubs) (cfg : Config) (wd iso : String)
    (args : Args) (r : McpResponse) (evs : List Event)
    (h : handleGenerateImage st cfg wd iso args = (Except.ok r, evs)) :
    ∃ t, r = ⟨[⟨t⟩], false⟩ := by
  by_cases hpi : promptInvalid args.prompt = true
  · unfold handleGenerateImage at h
    simp [hpi] at h
  · have hpi2 : promptInvalid args.prompt = false := by simpa using hpi
    cases hres : resolveOutputPath args.output_path (jsTrim (promptText args.prompt))
        cfg.outputFormat wd iso with
    | error e =>
      unfold handleGenerateImage at h
      simp [hpi2, hres] at h
    | ok rp =>
      by_cases hm : isModelSupported (jsOrStr args.model cfg.defaultModel) = true
      · have heq := handleGenerateImage_eq_run st cfg wd iso args rp hpi2 hres hm
        rw [heq] at h
        rcases hr : runGeneration st wd rp (jsTrim (promptText args.prompt))
            (jsOrStr args.model cfg.defaultModel) (jsOrInt args.width 1024)
            (jsOrInt args.height 768) (jsOrInt args.quality cfg.outputQuality) with ⟨r0, evs0⟩
        rw [hr] at h
        cases r0 with
        | error e => simp at h
        | ok r1 =>
          simp only [Prod.mk.injEq] at h
          obtain ⟨h1, h2⟩ := h
          obtain rfl := Except.ok.inj h1
          exact runGeneration_ok_shape _ _ _ _ _ _ _ _ _ _ hr
      · have hm2 : isModelSupported (jsOrStr args.model cfg.defaultModel) = false := by
          simpa using hm
        unfold handleGenerateImage at h
        simp [hpi2, hres, hm2] at h

/-- C3 counterexample: a call whose tool name is not `generate_image`
makes the tool-call handler throw a validation error (an exception
escapes to the surrounding RPC layer) instead of returning an error
payload. -/
theorem c3_unknown_tool_counterexample :
    callToolHandler happyStubs cfg0 "/wd" iso0 "resize_image" argsGood
      = (Except.error (Thrown.mcp (validationError "Unknown tool: resize_image")), []) := by
  rfl

/-- C3 amended: for every `generate_image` call the handler returns a
payload and never throws — a single text block, with the error flag
implying the `Error: `-prefixed shape — and any inner error that is not
a typed `McpError` is normalised to the generic processing message
`Unknown error occurred`; but a call with any other tool name throws. -/
theorem c3_generate_image_never_throws (st : Stubs) (cfg : Config) (wd iso : String)
    (args : Args) :
    ∃ resp evs, callToolHandler st cfg wd iso "generate_image" args = (Except.ok resp, evs) ∧
      (∃ t, resp.content = [⟨t⟩]) ∧
      (resp.isError = true → ∃ m, resp.content = [⟨"Error: " ++ m⟩]) ∧
      (∀ msg evs2, handleGenerateImage st cfg wd iso args = (Except.error (Thrown.other msg), evs2) →
        resp = ⟨[⟨"Error: Unknown error occurred"⟩], true⟩) := by
  unfold callToolHandler
  rw [if_pos rfl]
  rcases hh : handleGenerateImage st cfg wd iso args with ⟨fst, snd⟩
  cases fst with
  | ok r =>
    obtain ⟨t, rfl⟩ := handleGenerateImage_ok_shape st cfg wd iso args r snd hh
    refine ⟨_, snd, rfl, ⟨t, rfl⟩, ?_, ?_⟩
    · intro hie
      simp at hie
    · intro msg evs2 hother
      simp at hother
  | error err =>
    cases err with
    | mcp e =>
      refine ⟨_, snd, rfl, ⟨_, rfl⟩, ?_, ?_⟩
      · intro _
        exact ⟨e.message, rfl⟩
      · intro msg evs2 hother
        simp at hother
    | other m0 =>
      refine ⟨_, snd, rfl, ⟨_, rfl⟩, ?_, ?_⟩
      · intro _
        exact ⟨"Unknown error occurred", rfl⟩
      · intro msg evs2 hother
        rfl

/-- C3 witness: a concrete run in which the directory creation throws a
bare (non-`McpError`) filesystem error; the handler still returns a
payload, normalised to the generic processing message. -/
theorem c3_generate_image_never_throws_witness :
    ∃ resp evs, callToolHandler otherFailStubs cfg0 "/wd" iso0 "generate_image" argsGood
        = (Except.ok resp, evs) ∧
      (∃ t, resp.content = [⟨t⟩]) ∧
      (resp.isError = true → ∃ m, resp.content = [⟨"Error: " ++ m⟩]) ∧
      (∀ msg evs2,
        handleGenerateImage otherFailStubs cfg0 "/wd" iso0 argsGood
            = (Except.error (Thrown.other msg), evs2) →
        resp = ⟨[⟨"Error: Unknown error occurred"⟩], true⟩) :=
  c3_generate_image_never_throws otherFailStubs cfg0 "/wd" iso0 argsGood

/-- C1 counterexample: when validation is the failing stage (here: a
missing prompt), the error propagates with an empty event trace —
`cleanupAll` is never invoked, although the claim requires exactly one
invocation for every failing stage including validation. -/
theorem c1_validation_failure_skips_cleanup :
    handleGenerateImage happyStubs cfg0 "/wd" iso0 argsNoPrompt
      = (Except.error (Thrown.mcp (validationError "Prompt is required and must be a non-empty string")), []) ∧
    cleanupCount (handleGenerateImage happyStubs cfg0 "/wd" iso0 argsNoPrompt).2 = 0 :=
  ⟨rfl, rfl⟩

/-- C1 amended: an error thrown inside the `try` block (remote
submission onwards — the trace then starts with the remote-submission
event) triggers `cleanupAll` exactly once, as the last action before
the unchanged error propagates; an error thrown by the validation
stages (prompt, output path, model) propagates with an empty trace and
no cleanup invocation. -/
theorem c1_cleanup_exactly_once_after_submission (st : Stubs) (cfg : Config)
    (wd iso : String) (args : Args) (e : Thrown) (evs : List Event)
    (h : handleGenerateImage st cfg wd iso args = (Except.error e, evs)) :
    (evs = [] ∧ cleanupCount evs = 0) ∨
    (cleanupCount evs = 1 ∧ evs.getLast? = some Event.cleanupAll ∧
      ∃ p m w h2, evs.head? = some (Event.remoteGenerate p m w h2)) := by
  by_cases hpi : promptInvalid args.prompt = true
  · have heq : handleGenerateImage st cfg wd iso args
        = (Except.error (Thrown.mcp (validationError "Prompt is required and must be a non-empty string")), []) := by
      unfold handleGenerateImage
      rw [hpi]
      rfl
    rw [heq] at h
    obtain ⟨h1, h2⟩ := Prod.mk.inj h
    left
    refine ⟨h2.symm, ?_⟩
    rw [← h2]
    rfl
  · have hpi2 : promptInvalid args.prompt = false := by simpa using hpi
    cases hres : resolveOutputPath args.output_path (jsTrim (promptText args.prompt))
        cfg.outputFormat wd iso with
    | error e2 =>
      have heq : handleGenerateImage st cfg wd iso args = (Except.error e2, []) := by
        unfold handleGenerateImage
        simp only [hpi2, Bool.false_eq_true, if_false, hres]
      rw [heq] at h
      obtain ⟨h1, h2⟩ := Prod.mk.inj h
      left
      refine ⟨h2.symm, ?_⟩
      rw [← h2]
      rfl
    | ok rp =>
      by_cases hm : isModelSupported (jsOrStr args.model cfg.defaultModel) = true
      · have heq := handleGenerateImage_eq_run st cfg wd iso args rp hpi2 hres hm
        rcases hr : runGeneration st wd rp (jsTrim (promptText args.prompt))
            (jsOrStr args.model cfg.defaultModel) (jsOrInt args.width 1024)
            (jsOrInt args.height 768) (jsOrInt args.quality cfg.outputQuality) with ⟨r0, evs0⟩
        rw [hr] at heq
        obtain ⟨⟨tail, htail⟩, hclean, _⟩ :=
          runGeneration_snd st wd rp (jsTrim (promptText args.prompt))
            (jsOrStr args.model cfg.defaultModel) (jsOrInt args.width 1024)
            (jsOrInt args.height 768) (jsOrInt args.quality cfg.outputQuality) r0 evs0 hr
        cases r0 with
        | ok r1 =>
          rw [heq] at h
          simp at h
        | error e0 =>
          rw [heq] at h
          obtain ⟨h1, h2⟩ := Prod.mk.inj h
          subst h2
          right
          refine ⟨?_, ?_, ?_⟩
          · unfold cleanupCount
            rw [List.countP_append]
            have h0 : List.countP isCleanup evs0 = 0 :=
              List.countP_eq_zero.mpr (fun x hx => by simp [hclean x hx])
            rw [h0]
            rfl
          · rw [List.getLast?_concat]
          · refine ⟨jsTrim (promptText args.prompt), jsOrStr args.model cfg.defaultModel,
              jsOrInt args.width 1024, jsOrInt args.height 768, ?_⟩
            rw [htail]
            rfl
      · have hm2 : isModelSupported (jsOrStr args.model cfg.defaultModel) = false := by
          simpa using hm
        have heq : handleGenerateImage st cfg wd iso args
            = (Except.error (Thrown.mcp (validationError
                ("Unsupported model: " ++ jsOrStr args.model cfg.defaultModel ++
                 ". Supported models: " ++ String.intercalate ", " availableModels))), []) := by
          unfold handleGenerateImage
          simp only [hpi2, Bool.false_eq_true, if_false, hres, hm2, Bool.not_false, if_true]
        rw [heq] at h
        obtain ⟨h1, h2⟩ := Prod.mk.inj h
        left
        refine ⟨h2.symm, ?_⟩
        rw [← h2]
        rfl

/-- C1 witness: a concrete failing remote submission; the trace is the
submission event followed by exactly one cleanup invocation. -/
theorem c1_cleanup_exactly_once_witness :
    ([Event.remoteGenerate "hello" "flux-pro" 1024 768, Event.cleanupAll] = ([] : List Event) ∧
      cleanupCount [Event.remoteGenerate "hello" "flux-pro" 1024 768, Event.cleanupAll] = 0) ∨
    (cleanupCount [Event.remoteGenerate "hello" "flux-pro" 1024 768, Event.cleanupAll] = 1 ∧
      [Event.remoteGenerate "hello" "flux-pro" 1024 768, Event.cleanupAll].getLast?
        = some Event.cleanupAll ∧
      ∃ p m w h2, [Event.remoteGenerate "hello" "flux-pro" 1024 768, Event.cleanupAll].head?
        = some (Event.remoteGenerate p m w h2)) :=
  c1_cleanup_exactly_once_after_submission failStubs cfg0 "/wd" iso0 argsGood
    (Thrown.mcp (processingError "boom"))
    [Event.remoteGenerate "hello" "flux-pro" 1024 768, Event.cleanupAll] rfl

/-- Once validation passes, the handler's trace starts with the remote
submission carrying the defaulted parameters, and every `processImage`
invocation carries the resolved path and the defaulted
quality/width/height. -/
theorem handleGenerateImage_trace_facts (st : Stubs) (cfg : Config) (wd iso : String)
    (args : Args) (rp : String)
    (hp : promptInvalid args.prompt = false)
    (hpath : resolveOutputPath args.output_path (jsTrim (promptText args.prompt))
      cfg.outputFormat wd iso = Except.ok rp)
    (hmodel : isModelSupported (jsOrStr args.model cfg.defaultModel) = true) :
    (∃ tail, (handleGenerateImage st cfg wd iso args).2
        = Event.remoteGenerate (jsTrim (promptText args.prompt))
            (jsOrStr args.model cfg.defaultModel) (jsOrInt args.width 1024)
            (jsOrInt args.height 768) :: tail) ∧
    (∀ s q2 w2 h2, Event.processCall s q2 w2 h2 ∈ (handleGenerateImage st cfg wd iso args).2 →
      s = rp ∧ q2 = jsOrInt args.quality cfg.outputQuality ∧
      w2 = jsOrInt args.width 1024 ∧ h2 = jsOrInt args.height 768) := by
  have heq := handleGenerateImage_eq_run st cfg wd iso args rp hp hpath hmodel
  rcases hr : runGeneration st wd rp (jsTrim (promptText args.prompt))
      (jsOrStr args.model cfg.defaultModel) (jsOrInt args.width 1024)
      (jsOrInt args.height 768) (jsOrInt args.quality cfg.outputQuality) with ⟨r0, evs0⟩
  rw [hr] at heq
  obtain ⟨⟨tail, htail⟩, hclean, hproc⟩ :=
    runGeneration_snd st wd rp (jsTrim (promptText args.prompt))
      (jsOrStr args.model cfg.defaultModel) (jsOrInt args.width 1024)
      (jsOrInt args.height 768) (jsOrInt args.quality cfg.outputQuality) r0 evs0 hr
  cases r0 with
  | error e0 =>
    rw [heq]
    constructor
    · refine ⟨tail ++ [Event.cleanupAll], ?_⟩
      show evs0 ++ [Event.cleanupAll] = _
      rw [htail]
      rfl
    · intro s q2 w2 h2 hmem
      have hmem2 : Event.processCall s q2 w2 h2 ∈ evs0 ++ [Event.cleanupAll] := hmem
      rcases List.mem_append.mp hmem2 with hin | hin
      · exact hproc s q2 w2 h2 hin
      · simp at hin
  | ok r1 =>
    rw [heq]
    exact ⟨⟨tail, htail⟩, hproc⟩

/-- C4: absent `model`, `width`, `height`, `quality` fall back to the
process-wide defaults — the submission event carries the configured
default model and the built-in 1024×768, and any processor invocation
carries the configured default quality. -/
theorem c4_defaults_applied (st : Stubs) (cfg : Config) (wd iso : String)
    (args : Args) (rp : String)
    (hp : promptInvalid args.prompt = false)
    (hpath : resolveOutputPath args.output_path (jsTrim (promptText args.prompt))
      cfg.outputFormat wd iso = Except.ok rp)
    (hmodel : isModelSupported (jsOrStr args.model cfg.defaultModel) = true) :
    (∃ tail, (handleGenerateImage st cfg wd iso args).2
        = Event.remoteGenerate (jsTrim (promptText args.prompt))
            (jsOrStr args.model cfg.defaultModel) (jsOrInt args.width 1024)
            (jsOrInt args.height 768) :: tail) ∧
    (args.model = none → jsOrStr args.model cfg.defaultModel = cfg.defaultModel) ∧
    (args.width = none → jsOrInt args.width 1024 = 1024) ∧
    (args.height = none → jsOrInt args.height 768 = 768) ∧
    (args.quality = none →
      ∀ s q2 w2 h2, Event.processCall s q2 w2 h2 ∈ (handleGenerateImage st cfg wd iso args).2 →
        q2 = cfg.outputQuality) := by
  obtain ⟨hhead, hproc⟩ := handleGenerateImage_trace_facts st cfg wd iso args rp hp hpath hmodel
  refine ⟨hhead, ?_, ?_, ?_, ?_⟩
  · intro hq
    rw [hq]
    rfl
  · intro hq
    rw [hq]
    rfl
  · intro hq
    rw [hq]
    rfl
  · intro hq s q2 w2 h2 hmem
    have := (hproc s q2 w2 h2 hmem).2.1
    rw [hq] at this
    exact this

/-- C4 witness: a concrete call with only a prompt; the submission uses
the configured default model at 1024×768. -/
theorem c4_defaults_applied_witness :
    (∃ tail, (handleGenerateImage happyStubs cfg0 "/wd" iso0
        ⟨some (JsVal.str "hello"), none, none, none, none, none⟩).2
        = Event.remoteGenerate (jsTrim (promptText (some (JsVal.str "hello"))))
            (jsOrStr none cfg0.defaultModel) (jsOrInt none 1024)
            (jsOrInt none 768) :: tail) ∧
    ((⟨some (JsVal.str "hello"), none, none, none, none, none⟩ : Args).model = none →
      jsOrStr none cfg0.defaultModel = cfg0.defaultModel) ∧
    ((⟨some (JsVal.str "hello"), none, none, none, none, none⟩ : Args).width = none →
      jsOrInt none 1024 = 1024) ∧
    ((⟨some (JsVal.str "hello"), none, none, none, none, none⟩ : Args).height = none →
      jsOrInt none 768 = 768) ∧
    ((⟨some (JsVal.str "hello"), none, none, none, none, none⟩ : Args).quality = none →
      ∀ s q2 w2 h2, Event.processCall s q2 w2 h2 ∈ (handleGenerateImage happyStubs cfg0 "/wd" iso0
          ⟨some (JsVal.str "hello"), none, none, none, none, none⟩).2 →
        q2 = cfg0.outputQuality) :=
  c4_defaults_applied happyStubs cfg0 "/wd" iso0
    ⟨some (JsVal.str "hello"), none, none, none, none, none⟩
    "/wd/hello_2025-01-02T03-04-05.jpg" rfl (by rfl) rfl

/-- Is an outcome a thrown validation-kind `McpError`? -/
def isValidationError : Except Thrown McpResponse → Bool
  | Except.error (Thrown.mcp ⟨ErrKind.validation, _⟩) => true
  | _ => false

/-- C5 counterexample: a call supplying the out-of-range quality 150
passes straight through — the remote submission happens, the image
processor is invoked with quality 150, the output file is written, and
no validation error is ever raised. -/
theorem c5_out_of_range_quality_not_validated :
    (handleGenerateImage happyStubs cfg0 "/wd" iso0 argsQ150).2
      = [Event.remoteGenerate "hello" "flux-pro" 1024 768,
         Event.remoteDownload "http://img",
         Event.fsMkdir "/wd",
         Event.processCall "/wd/hello_2025-01-02T03-04-05.jpg" 150 1024 768,
         Event.fsWrite "/wd/hello_2025-01-02T03-04-05.jpg"] ∧
    isValidationError (handleGenerateImage happyStubs cfg0 "/wd" iso0 argsQ150).1 = false :=
  ⟨rfl, rfl⟩

/-- C5 amended: prompt, output path and model are validated before any
remote or filesystem I/O, but quality is not: whenever those three pass,
the pipeline is entered for every quality value whatsoever, and the
quality handed to the image processor is the supplied value (defaulted
only when falsy), unchecked against 1–100. -/
theorem c5_quality_forwarded_unvalidated (st : Stubs) (cfg : Config) (wd iso : String)
    (args : Args) (rp : String)
    (hp : promptInvalid args.prompt = false)
    (hpath : resolveOutputPath args.output_path (jsTrim (promptText args.prompt))
      cfg.outputFormat wd iso = Except.ok rp)
    (hmodel : isModelSupported (jsOrStr args.model cfg.defaultModel) = true) :
    (∃ tail, (handleGenerateImage st cfg wd iso args).2
        = Event.remoteGenerate (jsTrim (promptText args.prompt))
            (jsOrStr args.model cfg.defaultModel) (jsOrInt args.width 1024)
            (jsOrInt args.height 768) :: tail) ∧
    (∀ s q2 w2 h2, Event.processCall s q2 w2 h2 ∈ (handleGenerateImage st cfg wd iso args).2 →
      q2 = jsOrInt args.quality cfg.outputQuality) := by
  obtain ⟨hhead, hproc⟩ := handleGenerateImage_trace_facts st cfg wd iso args rp hp hpath hmodel
  exact ⟨hhead, fun s q2 w2 h2 hmem => (hproc s q2 w2 h2 hmem).2.1⟩

/-- C5 witness: the quality-150 call enters the pipeline and forwards
quality 150 to the processor. -/
theorem c5_quality_forwarded_unvalidated_witness :
    (∃ tail, (handleGenerateImage happyStubs cfg0 "/wd" iso0 argsQ150).2
        = Event.remoteGenerate (jsTrim (promptText argsQ150.prompt))
            (jsOrStr argsQ150.model cfg0.defaultModel) (jsOrInt argsQ150.width 1024)
            (jsOrInt argsQ150.height 768) :: tail) ∧
    (∀ s q2 w2 h2,
      Event.processCall s q2 w2 h2 ∈ (handleGenerateImage happyStubs cfg0 "/wd" iso0 argsQ150).2 →
      q2 = jsOrInt argsQ150.quality cfg0.outputQuality) :=
  c5_quality_forwarded_unvalidated happyStubs cfg0 "/wd" iso0 argsQ150
    "/wd/hello_2025-01-02T03-04-05.jpg" rfl (by rfl) rfl

/-- C8: if the remote client returns zero asset URLs, the pipeline
throws the processing error `No images were generated` right after the
submission — no download, no directory creation, no processor call, no
file write — cleanup runs once, and the tool-call envelope is the
error-flagged text `Error: No images were generated`. -/
theorem c8_zero_assets_processing_error (st : Stubs) (cfg : Config) (wd iso : String)
    (args : Args) (rp : String) (pt : Int)
    (hp : promptInvalid args.prompt = false)
    (hpath : resolveOutputPath args.output_path (jsTrim (promptText args.prompt))
      cfg.outputFormat wd iso = Except.ok rp)
    (hmodel : isModelSupported (jsOrStr args.model cfg.defaultModel) = true)
    (hgen : st.generateImage (jsTrim (promptText args.prompt))
        (jsOrStr args.model cfg.defaultModel) (jsOrInt args.width 1024)
        (jsOrInt args.height 768) = Except.ok ⟨[], pt⟩) :
    handleGenerateImage st cfg wd iso args
      = (Except.error (Thrown.mcp (processingError "No images were generated")),
         [Event.remoteGenerate (jsTrim (promptText args.prompt))
            (jsOrStr args.model cfg.defaultModel) (jsOrInt args.width 1024)
            (jsOrInt args.height 768),
          Event.cleanupAll]) ∧
    callToolHandler st cfg wd iso "generate_image" args
      = (Except.ok ⟨[⟨"Error: No images were generated"⟩], true⟩,
         [Event.remoteGenerate (jsTrim (promptText args.prompt))
            (jsOrStr args.model cfg.defaultModel) (jsOrInt args.width 1024)
            (jsOrInt args.height 768),
          Event.cleanupAll]) := by
  have hrun : runGeneration st wd rp (jsTrim (promptText args.prompt))
      (jsOrStr args.model cfg.defaultModel) (jsOrInt args.width 1024)
      (jsOrInt args.height 768) (jsOrInt args.quality cfg.outputQuality)
      = (Except.error (Thrown.mcp (processingError "No images were generated")),
         [Event.remoteGenerate (jsTrim (promptText args.prompt))
            (jsOrStr args.model cfg.defaultModel) (jsOrInt args.width 1024)
            (jsOrInt args.height 768)]) := by
    unfold runGeneration
    rw [hgen]
    rfl
  have heq := handleGenerateImage_eq_run st cfg wd iso args rp hp hpath hmodel
  rw [hrun] at heq
  constructor
  · rw [heq]
    rfl
  · unfold callToolHandler
    rw [if_pos rfl, heq]
    rfl

/-- C8 witness: the end-to-end zero-assets scenario of the spec. -/
theorem c8_zero_assets_processing_error_witness :
    handleGenerateImage zeroStubs cfg0 "/wd" iso0
        ⟨some (JsVal.str "sunset over mountains"), some "flux-schnell", none, none, none, none⟩
      = (Except.error (Thrown.mcp (processingError "No images were generated")),
         [Event.remoteGenerate (jsTrim (promptText (some (JsVal.str "sunset over mountains"))))
            (jsOrStr (some "flux-schnell") cfg0.defaultModel) (jsOrInt none 1024)
            (jsOrInt none 768),
          Event.cleanupAll]) ∧
    callToolHandler zeroStubs cfg0 "/wd" iso0 "generate_image"
        ⟨some (JsVal.str "sunset over mountains"), some "flux-schnell", none, none, none, none⟩
      = (Except.ok ⟨[⟨"Error: No images were generated"⟩], true⟩,
         [Event.remoteGenerate (jsTrim (promptText (some (JsVal.str "sunset over mountains"))))
            (jsOrStr (some "flux-schnell") cfg0.defaultModel) (jsOrInt none 1024)
            (jsOrInt none 768),
          Event.cleanupAll]) :=
  c8_zero_assets_processing_error zeroStubs cfg0 "/wd" iso0
    ⟨some (JsVal.str "sunset over mountains"), some "flux-schnell", none, none, none, none⟩
    "/wd/sunset_over_mountains_2025-01-02T03-04-05.jpg" 500 rfl (by rfl) rfl rfl

/-- C9: on a fully successful run, the tool-call response is exactly one
text block, `successText` — output path, model, `<width>x<height>`
dimensions, the byte size rounded to kilobytes, the processing time in
milliseconds, the cost with three decimal places and the working
directory — with the error flag unset; and a 200000-byte file rounds to
195 KB. -/
theorem c9_success_summary (st : Stubs) (cfg : Config) (wd iso : String)
    (args : Args) (rp : String) (urls : List String) (pt : Int) (buf : Nat)
    (pr : ProcessResult)
    (hp : promptInvalid args.prompt = false)
    (hpath : resolveOutputPath args.output_path (jsTrim (promptText args.prompt))
      cfg.outputFormat wd iso = Except.ok rp)
    (hmodel : isModelSupported (jsOrStr args.model cfg.defaultModel) = true)
    (hgen : st.generateImage (jsTrim (promptText args.prompt))
        (jsOrStr args.model cfg.defaultModel) (jsOrInt args.width 1024)
        (jsOrInt args.height 768) = Except.ok ⟨urls, pt⟩)
    (hne : urls.headD "" ≠ "")
    (hdl : st.downloadImage (urls.headD "") = Except.ok buf)
    (hmk : st.mkdir (dirname rp) = Except.ok ())
    (hproc : st.processImage buf rp (jsOrInt args.quality cfg.outputQuality)
        (jsOrInt args.width 1024) (jsOrInt args.height 768) = Except.ok pr) :
    callToolHandler st cfg wd iso "generate_image" args
      = (Except.ok ⟨[⟨successText pr.outputPath (jsOrStr args.model cfg.defaultModel)
            pr.width pr.height pr.fileSize pt
            (st.calculateCost (jsOrStr args.model cfg.defaultModel)) wd⟩], false⟩,
         [Event.remoteGenerate (jsTrim (promptText args.prompt))
            (jsOrStr args.model cfg.defaultModel) (jsOrInt args.width 1024)
            (jsOrInt args.height 768),
          Event.remoteDownload (urls.headD ""),
          Event.fsMkdir (dirname rp),
          Event.processCall rp (jsOrInt args.quality cfg.outputQuality)
            (jsOrInt args.width 1024) (jsOrInt args.height 768),
          Event.fsWrite pr.outputPath]) ∧
    jsRoundKB 200000 = 195 := by
  have hlen : ¬ urls.length = 0 := by
    intro h0
    rw [List.length_eq_zero] at h0
    subst h0
    exact hne rfl
  have hrun : runGeneration st wd rp (jsTrim (promptText args.prompt))
      (jsOrStr args.model cfg.defaultModel) (jsOrInt args.width 1024)
      (jsOrInt args.height 768) (jsOrInt args.quality cfg.outputQuality)
      = (Except.ok ⟨[⟨successText pr.outputPath (jsOrStr args.model cfg.defaultModel)
            pr.width pr.height pr.fileSize pt
            (st.calculateCost (jsOrStr args.model cfg.defaultModel)) wd⟩], false⟩,
         [Event.remoteGenerate (jsTrim (promptText args.prompt))
            (jsOrStr args.model cfg.defaultModel) (jsOrInt args.width 1024)
            (jsOrInt args.height 768),
          Event.remoteDownload (urls.headD ""),
          Event.fsMkdir (dirname rp),
          Event.processCall rp (jsOrInt args.quality cfg.outputQuality)
            (jsOrInt args.width 1024) (jsOrInt args.height 768),
          Event.fsWrite pr.outputPath]) := by
    unfold runGeneration
    rw [hgen]
    simp only [if_neg hlen, if_neg hne, hdl, hmk, hproc]
  have heq := handleGenerateImage_eq_run st cfg wd iso args rp hp hpath hmodel
  rw [hrun] at heq
  constructor
  · unfold callToolHandler
    rw [if_pos rfl, heq]
  · rfl

/-- C9 witness: the spec's end-to-end scenario — one asset URL, a
processor writing a 1024×768 file of 200000 bytes — produces the
success summary (in particular `File size: 195KB`). -/
theorem c9_success_summary_witness :
    callToolHandler happyStubs cfg0 "/wd" iso0 "generate_image"
        ⟨some (JsVal.str "sunset over mountains"), some "flux-schnell", none, none, none, none⟩
      = (Except.ok ⟨[⟨successText "/wd/sunset_over_mountains_2025-01-02T03-04-05.jpg"
            (jsOrStr (some "flux-schnell") cfg0.defaultModel) 1024 768 200000 1200
            (happyStubs.calculateCost (jsOrStr (some "flux-schnell") cfg0.defaultModel)) "/wd"⟩],
          false⟩,
         [Event.remoteGenerate (jsTrim (promptText (some (JsVal.str "sunset over mountains"))))
            (jsOrStr (some "flux-schnell") cfg0.defaultModel) (jsOrInt none 1024)
            (jsOrInt none 768),
          Event.remoteDownload (["http://img"].headD ""),
          Event.fsMkdir (dirname "/wd/sunset_over_mountains_2025-01-02T03-04-05.jpg"),
          Event.processCall "/wd/sunset_over_mountains_2025-01-02T03-04-05.jpg"
            (jsOrInt none cfg0.outputQuality) (jsOrInt none 1024) (jsOrInt none 768),
          Event.fsWrite "/wd/sunset_over_mountains_2025-01-02T03-04-05.jpg"]) ∧
    jsRoundKB 200000 = 195 :=
  c9_success_summary happyStubs cfg0 "/wd" iso0
    ⟨some (JsVal.str "sunset over mountains"), some "flux-schnell", none, none, none, none⟩
    "/wd/sunset_over_mountains_2025-01-02T03-04-05.jpg" ["http://img"] 1200 7
    ⟨"/wd/sunset_over_mountains_2025-01-02T03-04-05.jpg", 200000, 1024, 768⟩
    rfl (by rfl) rfl rfl (by decide) rfl rfl rfl
